import Mathlib

/-!
Shallow embedding of the `typed-routing` crate (src/lib.rs): a compile-time
contract layer binding an endpoint descriptor (method, path, query shape,
request-body shape, response-body shape) to server handlers and client
request builders.

Rust payload types (`T` in `Query<T>`, `JsonBody<T>`, …) are modelled by
`Nat` tags; two tags are equal exactly when the Rust types are the same
type.  The `serde` bounds (`T: Serialize + Deserialize`) on the impls are
modelled as always satisfied: a tag denotes a serde-capable payload type,
which is the only way a payload type is ever used in the crate.
-/

namespace TypedRouting

/-- Query-shape vocabulary: `NoQuery` or `Query<T>` (src/lib.rs lines 58-65). -/
inductive QueryShape where
  | noQuery : QueryShape
  | query (t : Nat) : QueryShape
deriving DecidableEq, Repr

/-- Request-body-shape vocabulary: `NoBody` or `JsonBody<T>` (src/lib.rs lines 67-73). -/
inductive BodyShape where
  | noBody : BodyShape
  | jsonBody (t : Nat) : BodyShape
deriving DecidableEq, Repr

/-- Handler-argument (extractor) types, the types at which `FromRequest`
impls exist or could be looked up:
`actix_web::web::Json<T>`, `actix_web::web::Query<T>`, `NoCheck<T>`,
tuples of such types, and arbitrary other (third-party) types. -/
inductive ArgTy where
  | json (t : Nat) : ArgTy
  | queryExtractor (t : Nat) : ArgTy
  | noCheck (inner : ArgTy) : ArgTy
  | other (n : Nat) : ArgTy
  | tuple (elems : List ArgTy) : ArgTy

mutual
/-- Trait resolution for `FromRequest<Query, Body>` (src/lib.rs lines 10-49):
there is an impl for `actix_web::web::Json<T>` at body shape `JsonBody<T>`
(any query shape), an impl for `actix_web::web::Query<T>` at query shape
`Query<T>` (any body shape), and one impl per tuple arity 0 through 16
requiring every component to implement the trait.  No other impl exists;
in particular none for `NoCheck<T>` and none for tuples of more than 16
elements. -/
def fromRequest : ArgTy → QueryShape → BodyShape → Bool
  | .json t, _, .jsonBody u => t = u
  | .queryExtractor t, .query u, _ => t = u
  | .tuple elems, q, b => elems.length ≤ 16 && allFromRequest elems q b
  | _, _, _ => false

/-- Conjunction of `fromRequest` over the components of a tuple, i.e. the
`where $($i: FromRequest<Query, Body>),*` clause of `impl_from_request!`. -/
def allFromRequest : List ArgTy → QueryShape → BodyShape → Bool
  | [], _, _ => true
  | a :: rest, q, b => fromRequest a q b && allFromRequest rest q b
end

/-- Response-body-shape vocabulary for the response channel: `NoBody` or
`JsonBody<T>` in `ResponseBody` position. -/
inductive RespShape where
  | noBody : RespShape
  | jsonBody (t : Nat) : RespShape
deriving DecidableEq, Repr

/-- Handler return types at which `IntoResponse` impls are looked up:
`Result<T, E>` or any other (non-`Result`) type. -/
inductive RetTy where
  | result (ok : RetTy) (err : RetTy) : RetTy
  | base (n : Nat) : RetTy
deriving DecidableEq, Repr

/-- Trait resolution for `IntoResponse<Body>` (src/lib.rs lines 51-56):
a blanket impl makes every type compatible with `NoBody`, and the only
impl at `JsonBody<R>` is for `Result<T, E>`, requiring
`T: IntoResponse<JsonBody<R>>` and leaving `E` unconstrained. -/
def intoResponse : RetTy → RespShape → Bool
  | _, .noBody => true
  | .result ok _, .jsonBody r => intoResponse ok (.jsonBody r)
  | .base _, .jsonBody _ => false

/-- The bound structure of `handled_by` (src/lib.rs lines 324-335): it
accepts a handler exactly when its argument tuple satisfies
`FromRequest<Route::Query, Route::RequestBody>` and its output satisfies
`IntoResponse<Route::ResponseBody>`. -/
def handledByAccepts (args : List ArgTy) (out : RetTy)
    (q : QueryShape) (b : BodyShape) (resp : RespShape) : Bool :=
  fromRequest (.tuple args) q b && intoResponse out resp

/-- The `http::Method` values a descriptor can carry: the nine standard
verbs, or an extension (custom) method, which `http::Method` also allows. -/
inductive HttpMethod where
  | GET | POST | PUT | DELETE | HEAD | OPTIONS | CONNECT | PATCH | TRACE
  | extension (s : String)
deriving DecidableEq, Repr

/-- The verbs of `gloo_net::http::Method` (the transport collaborator). -/
inductive GlooMethod where
  | GET | POST | PUT | DELETE | HEAD | OPTIONS | CONNECT | PATCH | TRACE
deriving DecidableEq, Repr

/-- An endpoint descriptor: the data of one `Route` impl (src/lib.rs
lines 153-164) — method, fully composed path, and the three shapes. -/
structure RouteSig where
  method : HttpMethod
  uri : String
  query : QueryShape
  requestBody : BodyShape
  responseBody : RespShape
deriving DecidableEq, Repr

/-- The accumulating low-level request head held by
`gloo_net::http::RequestBuilder`: verb, url, and appended query pairs. -/
structure GlooBuilder where
  method : GlooMethod
  url : String
  queryPairs : List (String × String)
deriving DecidableEq, Repr

/-- `gloo_net` `builder.query(params)`: appends raw key/value pairs to the
underlying request head. -/
def GlooBuilder.addQuery (b : GlooBuilder) (pairs : List (String × String)) : GlooBuilder :=
  { b with queryPairs := b.queryPairs ++ pairs }

/-- The body carried by a finished low-level request: none, or a serialized
JSON document. -/
inductive GlooBody where
  | none : GlooBody
  | json (doc : String) : GlooBody
deriving DecidableEq, Repr

/-- A finished low-level request (`gloo_net::http::Request`).  The model
field `sent` records whether the request has been transmitted on the
network; every constructor of a request sets it to `false`, and only
`send` transmits. -/
structure GlooRequest where
  head : GlooBuilder
  body : GlooBody
  sent : Bool
deriving DecidableEq, Repr

/-- The match in `RequestBuilder::new` (src/lib.rs lines 175-186) mapping
`Route::METHOD` to the transport verb; the catch-all arm is
`unimplemented!()`, a panic, modelled as `none`. -/
def glooMethodOf : HttpMethod → Option GlooMethod
  | .GET => some .GET
  | .POST => some .POST
  | .PUT => some .PUT
  | .DELETE => some .DELETE
  | .HEAD => some .HEAD
  | .OPTIONS => some .OPTIONS
  | .CONNECT => some .CONNECT
  | .PATCH => some .PATCH
  | .TRACE => some .TRACE
  | .extension _ => none

/-- The typestate of a `RequestBuilder<Route, Query, Body>` value: the two
type parameters recording which query/body is held, plus the accumulating
low-level request head. -/
structure RequestBuilderState where
  heldQuery : QueryShape
  heldBody : BodyShape
  builder : GlooBuilder
deriving DecidableEq, Repr

/-- `RequestBuilder::<Route, NoQuery, NoBody>::new` (src/lib.rs
lines 173-194): pre-populates the low-level head with the mapped verb and
`Route::URI`, holding no query and no body; an unrecognized method
panics (`none`). -/
def RequestBuilder.new (route : RouteSig) : Option RequestBuilderState :=
  match glooMethodOf route.method with
  | some m =>
      some { heldQuery := .noQuery, heldBody := .noBody,
             builder := { method := m, url := route.uri, queryPairs := [] } }
  | none => none

/-- The staged calls a caller can make on a builder before `build`:
`query(value)` at payload type `t`, `json(value)` at payload type `t`, or
`extra_query(pairs)`. -/
inductive BuilderOp where
  | setQuery (t : Nat) : BuilderOp
  | setJson (t : Nat) : BuilderOp
  | extraQuery (pairs : List (String × String)) : BuilderOp
deriving DecidableEq, Repr

/-- Applicability and effect of one staged call, read off the impl headers
(src/lib.rs lines 196-228): `query` exists only on
`RequestBuilder<Route, NoQuery, Body>` with `Route::Query = Query<T>` and
moves to `Query<T>` leaving the body parameter unchanged; `json` exists
only on `RequestBuilder<Route, Query, NoBody>` with
`Route::RequestBody = JsonBody<T>` and moves to `JsonBody<T>` leaving the
query parameter unchanged; `extra_query` exists in every state and only
appends raw pairs to the low-level head.  `none` models a call the type
system rejects. -/
def applyOp (route : RouteSig) (s : RequestBuilderState) :
    BuilderOp → Option RequestBuilderState
  | .setQuery t =>
      if route.query = .query t ∧ s.heldQuery = .noQuery then
        some { s with heldQuery := .query t }
      else none
  | .setJson t =>
      if route.requestBody = .jsonBody t ∧ s.heldBody = .noBody then
        some { s with heldBody := .jsonBody t }
      else none
  | .extraQuery pairs => some { s with builder := s.builder.addQuery pairs }

/-- Runs a sequence of staged calls; fails if any call is unavailable in
the state it is attempted in. -/
def runOps (route : RouteSig) (s : RequestBuilderState) :
    List BuilderOp → Option RequestBuilderState
  | [] => some s
  | op :: rest =>
      match applyOp route s op with
      | some s2 => runOps route s2 rest
      | none => none

/-- Availability of `build` (src/lib.rs lines 238-252): the impl requires
the typestate parameters to coincide with the declared
`Route::Query` / `Route::RequestBody` (the `ApplyToRequestHead` /
`ApplyToRequestBody` bounds hold for every shape a route can declare). -/
def buildAvailable (route : RouteSig) (s : RequestBuilderState) : Bool :=
  s.heldQuery = route.query && s.heldBody = route.requestBody

/-- Whether a staged call is the typed query-setting call. -/
def BuilderOp.isSetQuery : BuilderOp → Bool
  | .setQuery _ => true
  | _ => false

/-- Whether a staged call is the typed body-setting call. -/
def BuilderOp.isSetJson : BuilderOp → Bool
  | .setJson _ => true
  | _ => false

/-- The error sum returned by `build` (src/lib.rs lines 230-236): an
encode failure tagged with its source channel. -/
inductive RequestBuildError (QE BE : Type) where
  | queryError (e : QE) : RequestBuildError QE BE
  | bodyError (e : BE) : RequestBuildError QE BE
deriving DecidableEq, Repr

/-- Rust `str::split_once(sep)`: splits at the first occurrence of the
separator, or `none` when the separator does not occur. -/
def rustSplitOnce (sep : String) (s : String) : Option (String × String) :=
  match s.splitOn sep with
  | [] => none
  | [_] => none
  | p :: rest => some (p, String.intercalate sep rest)

/-- The pair parsing inside `Query<T>::apply` (src/lib.rs line 120):
`params.split('&').filter_map(|pair| pair.split_once('='))`. -/
def parseQueryPairs (encoded : String) : List (String × String) :=
  (encoded.splitOn "&").filterMap (rustSplitOnce "=")

/-- `ApplyToRequestHead` for `NoQuery` (src/lib.rs lines 103-111): error
type `Infallible` (here `Empty`), returns the builder unchanged. -/
def NoQuery.applyHead (b : GlooBuilder) : Except Empty GlooBuilder := .ok b

/-- `ApplyToRequestHead` for `Query<T>` (src/lib.rs lines 113-123):
`serde_urlencoded::to_string(self.0)?`, then split into pairs appended to
the head.  The urlencoded serialization of the held value is the external
collaborator; its outcome is the parameter `encodeResult`. -/
def Query.applyHead {E : Type} (encodeResult : Except E String) (b : GlooBuilder) :
    Except E GlooBuilder :=
  match encodeResult with
  | .error e => .error e
  | .ok s => .ok (b.addQuery (parseQueryPairs s))

/-- `ApplyToRequestBody` for `NoBody` (src/lib.rs lines 133-141): calls
the low-level `builder.build()`, which attaches no body.  The platform
outcome of that call is the external parameter `buildOutcome`. -/
def NoBody.applyBody {E : Type} (buildOutcome : Except E Unit) (b : GlooBuilder) :
    Except E GlooRequest :=
  match buildOutcome with
  | .error e => .error e
  | .ok _ => .ok { head := b, body := .none, sent := false }

/-- `ApplyToRequestBody` for `JsonBody<T>` (src/lib.rs lines 142-151):
calls the low-level `builder.json(&self.0)`, which serializes the held
value to a JSON document and attaches it as the body.  The serialization
outcome is the external parameter `jsonOutcome`. -/
def JsonBody.applyBody {E : Type} (jsonOutcome : Except E String) (b : GlooBuilder) :
    Except E GlooRequest :=
  match jsonOutcome with
  | .error e => .error e
  | .ok doc => .ok { head := b, body := .json doc, sent := false }

/-- `RequestBuilder::build` (src/lib.rs lines 244-267): first
`self.query.apply(self.builder)`, returning `QueryError` on failure; then
`self.body.apply(builder)`, returning `BodyError` on failure; on success
the finished request.  The two shape-directed apply methods enter as the
function parameters `applyQ` and `applyB`. -/
def RequestBuilder.build {QE BE : Type}
    (applyQ : GlooBuilder → Except QE GlooBuilder)
    (applyB : GlooBuilder → Except BE GlooRequest)
    (b : GlooBuilder) : Except (RequestBuildError QE BE) GlooRequest :=
  match applyQ b with
  | .error qe => .error (.queryError qe)
  | .ok b2 =>
      match applyB b2 with
      | .error be => .error (.bodyError be)
      | .ok req => .ok req

/-- `Request::send` (src/lib.rs lines 275-282): transmits the request
through the transport collaborator (`transport`), the only operation that
does; the transmitted request is marked `sent`. -/
def Request.send {TE R : Type} (transport : GlooRequest → Except TE R)
    (req : GlooRequest) : Except TE R × GlooRequest :=
  (transport { req with sent := true }, { req with sent := true })

/-- The crate-root constant `const URI: &str = "/123"` (src/lib.rs
line 501). -/
def crateURI : String := "/123"

namespace x

/-- The scope constant the `routes!` expansion emits inside `mod x`
(src/lib.rs line 466 with `scope: "/xyz"`):
`const URI = const_str::concat!(super::URI, "/xyz")`, where `super::URI`
is the crate-root constant. -/
def scopeURI : String := crateURI ++ "/xyz"

/-- `Abc::URI_PART` from the route declaration
`route(Method::POST, "/abc" => type Abc ...)` (src/lib.rs line 513). -/
def Abc.URI_PART : String := "/abc"

/-- `Abc::URI` as `define_route_type!` emits it (src/lib.rs line 489):
`const_str::concat!(super::URI, $uri_part)`.  The expansion site is
`mod x`, so the path `super::URI` resolves to the crate-root constant
`crate::URI` — not to the scope constant `x::URI` the same `routes!`
expansion defines. -/
def Abc.URI : String := crateURI ++ Abc.URI_PART

/-- Payload tag standing for the Rust type `Vec<u8>`. -/
def vecU8Tag : Nat := 0

/-- Payload tag standing for the Rust type `(String, u8)`. -/
def stringU8PairTag : Nat := 1

/-- The endpoint descriptor of the declared route `x::Abc` (src/lib.rs
lines 510-517): POST, the composed URI, `NoQuery`,
`JsonBody<Vec<u8>>`, response `JsonBody<(String, u8)>`. -/
def Abc.route : RouteSig :=
  { method := .POST, uri := Abc.URI, query := .noQuery,
    requestBody := .jsonBody vecU8Tag,
    responseBody := .jsonBody stringU8PairTag }

end x

/-- The body of the `Module::register` implementation the `routes!`
expansion generates (src/lib.rs lines 460-464): an empty block.  Its
value is the unit value; the router argument does not occur in it, so the
body cannot produce the router the trait signature
`fn register<R: Router>(self, router: R) -> R` promises to return. -/
def Module.registerBody {R : Type} (router : R) : Unit := ()

/-- A decode failure from the transport collaborator when reading a
response body: the body stream was already consumed, or the document did
not deserialize. -/
inductive GlooJsonError where
  | bodyAlreadyUsed : GlooJsonError
  | decodeFailed : GlooJsonError
deriving DecidableEq, Repr

/-- The raw transport response owned by a `Response` wrapper: status,
headers, the consumed-flag, and the raw body document. -/
structure GlooResponse where
  status : Nat
  headers : List (String × String)
  bodyUsed : Bool
  bodyDoc : String
deriving DecidableEq, Repr

/-- Modelled from the spec: the transport collaborator exposes
`response.bodyConsumed()` and an asynchronous `decode()` that reads the
body stream; the stream may be read at most once, so reading marks the
body consumed and a read of an already-consumed body fails (spec sections
4.4 and 6; the concrete collaborator, `gloo_net::http::Response::json`,
is external to this crate).  The structural deserialization of the
document into `T` is the external parameter `decode`. -/
def GlooResponse.json {α : Type} (decode : String → Except GlooJsonError α)
    (r : GlooResponse) : Except GlooJsonError α × GlooResponse :=
  if r.bodyUsed then (.error .bodyAlreadyUsed, r)
  else (decode r.bodyDoc, { r with bodyUsed := true })

/-- `Response::json` (src/lib.rs lines 311-317): the impl exists only for
routes with `ResponseBody = JsonBody<T>`; for any other response shape
the method does not exist (`none`).  When available it delegates to the
raw response. -/
def Response.json {α : Type} (route : RouteSig)
    (decode : String → Except GlooJsonError α) (r : GlooResponse) :
    Option (Except GlooJsonError α × GlooResponse) :=
  match route.responseBody with
  | .jsonBody _ => some (GlooResponse.json decode r)
  | .noBody => none

theorem allFromRequest_eq_all (elems : List ArgTy) (q : QueryShape) (b : BodyShape) :
    allFromRequest elems q b = elems.all (fun a => fromRequest a q b) := by
  induction elems with
  | nil => rfl
  | cons a rest ih => simp [allFromRequest, ih, List.all_cons]

/-- C3: the `routes!` expansion composes the leaf path of `Abc` against
the crate-root path, not against the scope path: `Abc::URI` evaluates to
"/123/abc", not the "/123/xyz/abc" the declared scope "/xyz" calls for;
appending the leaf suffix to the composed scope path would give
"/123/xyz/abc". -/
theorem C3_abc_uri_skips_scope :
    x.Abc.URI = "/123/abc" ∧ x.Abc.URI ≠ "/123/xyz/abc" ∧
    x.scopeURI ++ x.Abc.URI_PART = "/123/xyz/abc" :=
  ⟨rfl, by decide, rfl⟩

/-- C4: for the tuple impls of `FromRequest`, the empty tuple is
compatible with every shape pair; a tuple of at most 16 components is
compatible exactly when every component, checked independently, is
compatible with the same pair; a tuple of more than 16 components is
rejected outright. -/
theorem C4_tuple_arity_compatibility (q : QueryShape) (b : BodyShape) :
    fromRequest (.tuple []) q b = true ∧
    (∀ elems : List ArgTy, elems.length ≤ 16 →
      (fromRequest (.tuple elems) q b = true ↔
        ∀ a ∈ elems, fromRequest a q b = true)) ∧
    (∀ elems : List ArgTy, 16 < elems.length →
      fromRequest (.tuple elems) q b = false) := by
  refine ⟨rfl, ?_, ?_⟩
  · intro elems h
    simp [fromRequest, allFromRequest_eq_all, List.all_eq_true, h]
  · intro elems h
    simp [fromRequest, allFromRequest_eq_all]
    omega

/-- Witness for C4 at a two-element tuple and a seventeen-element tuple. -/
theorem C4_tuple_arity_compatibility_witness :
    (([ArgTy.json 3, ArgTy.queryExtractor 5] : List ArgTy).length ≤ 16 ∧
      (fromRequest (.tuple [ArgTy.json 3, ArgTy.queryExtractor 5]) (.query 5) (.jsonBody 3) = true ↔
        ∀ a ∈ ([ArgTy.json 3, ArgTy.queryExtractor 5] : List ArgTy),
          fromRequest a (.query 5) (.jsonBody 3) = true)) ∧
    (16 < (List.replicate 17 (ArgTy.other 0)).length ∧
      fromRequest (.tuple (List.replicate 17 (ArgTy.other 0))) (.query 5) (.jsonBody 3) = false) :=
  ⟨⟨by decide, (C4_tuple_arity_compatibility (.query 5) (.jsonBody 3)).2.1 _ (by decide)⟩,
   ⟨by decide, (C4_tuple_arity_compatibility (.query 5) (.jsonBody 3)).2.2 _ (by decide)⟩⟩

/-- C5: the crate defines no `FromRequest` impl for `NoCheck<T>`, so a
`NoCheck`-wrapped argument is compatible with no shape pair at all —
contradicting the doc comment on `NoCheck` (src/lib.rs lines 75-78),
which presents it as an opt-out making the wrapped argument pass the
check unconditionally. -/
theorem C5_noCheck_never_compatible (inner : ArgTy) (q : QueryShape) (b : BodyShape) :
    fromRequest (.noCheck inner) q b = false := by
  cases q <;> cases b <;> rfl

/-- C6: every return type satisfies `IntoResponse<NoBody>`; `Result<T, E>`
satisfies `IntoResponse<JsonBody<R>>` exactly when `T` does; and the
failure variant `E` never influences the outcome. -/
theorem C6_intoResponse_rules :
    (∀ t : RetTy, intoResponse t .noBody = true) ∧
    (∀ (t e : RetTy) (r : Nat),
      intoResponse (.result t e) (.jsonBody r) = true ↔
        intoResponse t (.jsonBody r) = true) ∧
    (∀ (t e1 e2 : RetTy) (s : RespShape),
      intoResponse (.result t e1) s = intoResponse (.result t e2) s) := by
  refine ⟨?_, ?_, ?_⟩
  · intro t; cases t <;> rfl
  · intro t e r; rfl
  · intro t e1 e2 s; cases s <;> rfl

/-- C7: `IntoResponse<JsonBody<R>>` has no base case — the only impl at a
JSON response shape is the `Result` one, whose hypothesis is again at the
JSON shape — so no return type whatsoever satisfies it, and `handled_by`
accepts no handler for a route whose `ResponseBody` is `JsonBody<R>`. -/
theorem C7_jsonBody_response_uninhabited :
    (∀ (t : RetTy) (r : Nat), intoResponse t (.jsonBody r) = false) ∧
    (∀ (args : List ArgTy) (out : RetTy) (q : QueryShape) (b : BodyShape) (r : Nat),
      handledByAccepts args out q b (.jsonBody r) = false) := by
  have h : ∀ (t : RetTy) (r : Nat), intoResponse t (.jsonBody r) = false := by
    intro t
    induction t with
    | result ok err ihok iherr => intro r; simpa [intoResponse] using ihok r
    | base n => intro r; rfl
  refine ⟨h, ?_⟩
  intro args out q b r
  simp [handledByAccepts, h]

/-- C8: the `register` body the `routes!` expansion generates is the
empty block — its value is the unit value, independent of the router
argument, so it does not return the router the `Module` trait signature
declares. -/
theorem C8_register_body_drops_router :
    Module.registerBody (0 : Nat) = Module.registerBody (1 : Nat) ∧
    Module.registerBody (0 : Nat) = () :=
  ⟨rfl, rfl⟩

/-- C9: a fresh builder maps the route METHOD to the transport verb: the
nine recognized verbs each succeed, pre-populating the low-level head
with the mapped verb, the full route path, and no query pairs; any
extension method is fatal (the `unimplemented!()` arm, modelled `none`),
with no fallback verb. -/
theorem C9_new_verb_mapping (route : RouteSig) :
    (∀ s : String, route.method = .extension s → RequestBuilder.new route = none) ∧
    (∀ m : GlooMethod, glooMethodOf route.method = some m →
      RequestBuilder.new route =
        some { heldQuery := .noQuery, heldBody := .noBody,
               builder := { method := m, url := route.uri, queryPairs := [] } }) ∧
    (∀ m : GlooMethod, glooMethodOf route.method = some m ↔
      (route.method, m) ∈
        ([(.GET, .GET), (.POST, .POST), (.PUT, .PUT), (.DELETE, .DELETE),
          (.HEAD, .HEAD), (.OPTIONS, .OPTIONS), (.CONNECT, .CONNECT),
          (.PATCH, .PATCH), (.TRACE, .TRACE)] : List (HttpMethod × GlooMethod))) := by
  refine ⟨?_, ?_, ?_⟩
  · intro s h
    simp [RequestBuilder.new, h, glooMethodOf]
  · intro m h
    simp [RequestBuilder.new, h]
  · obtain ⟨mth, uri, q, b, resp⟩ := route
    cases mth <;> intro m <;> cases m <;> simp [glooMethodOf]

/-- Witness for C9: an extension method panics; the declared POST route
`x::Abc` succeeds with the POST verb and its composed path. -/
theorem C9_new_verb_mapping_witness :
    RequestBuilder.new
      { method := .extension "LIST", uri := "/u", query := .noQuery,
        requestBody := .noBody, responseBody := .noBody } = none ∧
    RequestBuilder.new x.Abc.route =
      some { heldQuery := .noQuery, heldBody := .noBody,
             builder := { method := .POST, url := x.Abc.route.uri, queryPairs := [] } } :=
  ⟨(C9_new_verb_mapping _).1 "LIST" rfl,
   (C9_new_verb_mapping x.Abc.route).2.1 .POST rfl⟩

/-- C10: the typed decode is available exactly when the route response
shape is a JSON body (the impl of `Response::json` exists only there);
and a successful decode marks the body consumed, after which any further
decode fails — decode never succeeds twice on the same response. -/
theorem C10_response_json_once (route : RouteSig) {α : Type} :
    (route.responseBody = .noBody →
      ∀ (decode : String → Except GlooJsonError α) (r : GlooResponse),
        Response.json route decode r = none) ∧
    (∀ t : Nat, route.responseBody = .jsonBody t →
      ∀ (decode : String → Except GlooJsonError α) (r : GlooResponse),
        Response.json route decode r = some (GlooResponse.json decode r)) ∧
    (∀ (decode : String → Except GlooJsonError α) (r r2 : GlooResponse) (v : α),
      GlooResponse.json decode r = (.ok v, r2) →
      r2.bodyUsed = true ∧
      ∀ (decode2 : String → Except GlooJsonError α) (w : α),
        (GlooResponse.json decode2 r2).1 ≠ .ok w) := by
  refine ⟨?_, ?_, ?_⟩
  · intro h decode r
    simp [Response.json, h]
  · intro t h decode r
    simp [Response.json, h]
  · intro decode r r2 v h
    by_cases hu : r.bodyUsed
    · simp [GlooResponse.json, hu] at h
    · simp [GlooResponse.json, hu] at h
      have h2 : r2.bodyUsed = true := by
        rw [← h.2]
      refine ⟨h2, ?_⟩
      intro decode2 w
      simp [GlooResponse.json, h2]

/-- Witness for C10 at a no-body route, the JSON route `x::Abc`, and a
concrete fresh response. -/
theorem C10_response_json_once_witness :
    Response.json
      { method := .GET, uri := "/u", query := .noQuery,
        requestBody := .noBody, responseBody := .noBody }
      (fun _ => Except.ok (0 : Nat))
      { status := 200, headers := [], bodyUsed := false, bodyDoc := "[1]" } = none ∧
    Response.json x.Abc.route (fun _ => Except.ok (0 : Nat))
      { status := 200, headers := [], bodyUsed := false, bodyDoc := "[1]" } =
      some (GlooResponse.json (fun _ => Except.ok (0 : Nat))
        { status := 200, headers := [], bodyUsed := false, bodyDoc := "[1]" }) ∧
    (GlooResponse.json (fun _ => Except.ok (0 : Nat))
        { status := 200, headers := [], bodyUsed := false, bodyDoc := "[1]" } =
      (Except.ok 0, { status := 200, headers := [], bodyUsed := true, bodyDoc := "[1]" }) ∧
      (GlooResponse.json (fun _ => Except.ok (0 : Nat))
          { status := 200, headers := [], bodyUsed := true, bodyDoc := "[1]" }).1 ≠ Except.ok 0) :=
  ⟨(C10_response_json_once _).1 rfl _ _,
   (C10_response_json_once x.Abc.route).2.1 x.stringU8PairTag rfl _ _,
   rfl,
   ((C10_response_json_once x.Abc.route).2.2 (fun _ => Except.ok (0 : Nat))
      { status := 200, headers := [], bodyUsed := false, bodyDoc := "[1]" }
      { status := 200, headers := [], bodyUsed := true, bodyDoc := "[1]" } 0 rfl).2
      (fun _ => Except.ok (0 : Nat)) 0⟩

/-- C2: `build` applies the query stage first — infallible for `NoQuery`
— and on a query-stage failure returns the query-tagged error without the
body stage influencing the outcome at all; otherwise it applies the body
stage, returning the body-tagged error on failure; a success yields
exactly the request the body stage produced, reached through both stages
in order; and the requests the two body-stage impls produce are
untransmitted (`NoBody` attaching no body to the unchanged head). -/
theorem C2_build_stage_tagging {QE BE : Type} :
    (∀ b : GlooBuilder, NoQuery.applyHead b = .ok b) ∧
    (∀ (applyQ : GlooBuilder → Except QE GlooBuilder)
       (applyB applyB2 : GlooBuilder → Except BE GlooRequest)
       (b : GlooBuilder) (qe : QE),
      applyQ b = .error qe →
      RequestBuilder.build applyQ applyB b = .error (.queryError qe) ∧
      RequestBuilder.build applyQ applyB b = RequestBuilder.build applyQ applyB2 b) ∧
    (∀ (applyQ : GlooBuilder → Except QE GlooBuilder)
       (applyB : GlooBuilder → Except BE GlooRequest)
       (b b2 : GlooBuilder) (be : BE),
      applyQ b = .ok b2 → applyB b2 = .error be →
      RequestBuilder.build applyQ applyB b = .error (.bodyError be)) ∧
    (∀ (applyQ : GlooBuilder → Except QE GlooBuilder)
       (applyB : GlooBuilder → Except BE GlooRequest)
       (b : GlooBuilder) (req : GlooRequest),
      RequestBuilder.build applyQ applyB b = .ok req ↔
        ∃ b2, applyQ b = .ok b2 ∧ applyB b2 = .ok req) ∧
    (∀ (outcome : Except BE Unit) (b : GlooBuilder) (req : GlooRequest),
      NoBody.applyBody outcome b = .ok req →
      req.head = b ∧ req.body = .none ∧ req.sent = false) ∧
    (∀ (outcome : Except BE String) (b : GlooBuilder) (req : GlooRequest),
      JsonBody.applyBody outcome b = .ok req → req.sent = false) := by
  refine ⟨fun _ => rfl, ?_, ?_, ?_, ?_, ?_⟩
  · intro applyQ applyB applyB2 b qe h
    constructor <;> simp [RequestBuilder.build, h]
  · intro applyQ applyB b b2 be hq hb
    simp [RequestBuilder.build, hq, hb]
  · intro applyQ applyB b req
    constructor
    · intro h
      match hq : applyQ b with
      | .error qe => simp [RequestBuilder.build, hq] at h
      | .ok b2 =>
        refine ⟨b2, rfl, ?_⟩
        match hb : applyB b2 with
        | .error be => simp [RequestBuilder.build, hq, hb] at h
        | .ok req2 =>
          simp [RequestBuilder.build, hq, hb] at h
          rw [h]
    · rintro ⟨b2, hq, hb⟩
      simp [RequestBuilder.build, hq, hb]
  · intro outcome b req h
    match outcome with
    | .error e => simp [NoBody.applyBody] at h
    | .ok _ =>
      simp [NoBody.applyBody] at h
      subst h
      exact ⟨rfl, rfl, rfl⟩
  · intro outcome b req h
    match outcome with
    | .error e => simp [JsonBody.applyBody] at h
    | .ok doc =>
      simp [JsonBody.applyBody] at h
      subst h
      rfl

/-- Witness for C2 at concrete stage functions over `Nat` error types. -/
theorem C2_build_stage_tagging_witness :
    ((fun _ : GlooBuilder => (Except.error 7 : Except Nat GlooBuilder))
        { method := .GET, url := "/u", queryPairs := [] } = .error 7 ∧
      RequestBuilder.build
        (fun _ : GlooBuilder => (Except.error 7 : Except Nat GlooBuilder))
        (fun b : GlooBuilder =>
          (Except.ok { head := b, body := .none, sent := false } : Except Nat GlooRequest))
        { method := .GET, url := "/u", queryPairs := [] } = .error (.queryError 7)) ∧
    (RequestBuilder.build
        (fun b : GlooBuilder => (Except.ok b : Except Nat GlooBuilder))
        (fun _ : GlooBuilder => (Except.error 9 : Except Nat GlooRequest))
        { method := .GET, url := "/u", queryPairs := [] } = .error (.bodyError 9)) ∧
    (NoBody.applyBody (Except.ok () : Except Nat Unit)
        { method := .GET, url := "/u", queryPairs := [] } =
      .ok { head := { method := .GET, url := "/u", queryPairs := [] },
            body := .none, sent := false } ∧
      ({ head := { method := .GET, url := "/u", queryPairs := [] },
         body := .none, sent := false } : GlooRequest).sent = false) :=
  ⟨⟨rfl,
    ((@C2_build_stage_tagging Nat Nat).2.1
      (fun _ => Except.error 7)
      (fun b => Except.ok { head := b, body := .none, sent := false })
      (fun b => Except.ok { head := b, body := .none, sent := false })
      { method := .GET, url := "/u", queryPairs := [] } 7 rfl).1⟩,
   (@C2_build_stage_tagging Nat Nat).2.2.1
      (fun b => Except.ok b) (fun _ => Except.error 9)
      { method := .GET, url := "/u", queryPairs := [] }
      { method := .GET, url := "/u", queryPairs := [] } 9 rfl rfl,
   rfl,
   ((@C2_build_stage_tagging Nat Nat).2.2.2.2.1
      (Except.ok ()) { method := .GET, url := "/u", queryPairs := [] }
      { head := { method := .GET, url := "/u", queryPairs := [] },
        body := .none, sent := false } rfl).2.2⟩

theorem applyOp_query_step (route : RouteSig) (s s2 : RequestBuilderState)
    (op : BuilderOp) (h : applyOp route s op = some s2) :
    (op.isSetQuery = false ∧ s2.heldQuery = s.heldQuery) ∨
    (∃ t, op = .setQuery t ∧ route.query = .query t ∧
      s.heldQuery = .noQuery ∧ s2.heldQuery = .query t) := by
  match op with
  | .setQuery t =>
    right
    by_cases hc : route.query = QueryShape.query t ∧ s.heldQuery = QueryShape.noQuery
    · simp [applyOp, hc] at h
      exact ⟨t, rfl, hc.1, hc.2, by rw [← h]⟩
    · simp [applyOp, hc] at h
  | .setJson t =>
    left
    by_cases hc : route.requestBody = BodyShape.jsonBody t ∧ s.heldBody = BodyShape.noBody
    · simp [applyOp, hc] at h
      exact ⟨rfl, by rw [← h]⟩
    · simp [applyOp, hc] at h
  | .extraQuery pairs =>
    left
    simp [applyOp] at h
    exact ⟨rfl, by rw [← h]⟩

theorem applyOp_body_step (route : RouteSig) (s s2 : RequestBuilderState)
    (op : BuilderOp) (h : applyOp route s op = some s2) :
    (op.isSetJson = false ∧ s2.heldBody = s.heldBody) ∨
    (∃ t, op = .setJson t ∧ route.requestBody = .jsonBody t ∧
      s.heldBody = .noBody ∧ s2.heldBody = .jsonBody t) := by
  match op with
  | .setJson t =>
    right
    by_cases hc : route.requestBody = BodyShape.jsonBody t ∧ s.heldBody = BodyShape.noBody
    · simp [applyOp, hc] at h
      exact ⟨t, rfl, hc.1, hc.2, by rw [← h]⟩
    · simp [applyOp, hc] at h
  | .setQuery t =>
    left
    by_cases hc : route.query = QueryShape.query t ∧ s.heldQuery = QueryShape.noQuery
    · simp [applyOp, hc] at h
      exact ⟨rfl, by rw [← h]⟩
    · simp [applyOp, hc] at h
  | .extraQuery pairs =>
    left
    simp [applyOp] at h
    exact ⟨rfl, by rw [← h]⟩

theorem runOps_query_trace (route : RouteSig) (ops : List BuilderOp) :
    ∀ (s final : RequestBuilderState), runOps route s ops = some final →
      (final.heldQuery = s.heldQuery ∧
        ops.filter (fun op => op.isSetQuery) = []) ∨
      (∃ t, route.query = .query t ∧ s.heldQuery = .noQuery ∧
        final.heldQuery = .query t ∧
        ops.filter (fun op => op.isSetQuery) = [.setQuery t]) := by
  induction ops with
  | nil =>
    intro s final h
    simp [runOps] at h
    subst h
    exact Or.inl ⟨rfl, rfl⟩
  | cons op rest ih =>
    intro s final h
    cases hstep : applyOp route s op with
    | none => simp [runOps, hstep] at h
    | some s2 =>
      simp only [runOps, hstep] at h
      rcases applyOp_query_step route s s2 op hstep with ⟨hop, hq⟩ | ⟨t, hopEq, hroute, hsq, hs2q⟩
      · rcases ih s2 final h with ⟨h1, h2⟩ | ⟨t, h1, h2, h3, h4⟩
        · exact Or.inl ⟨by rw [h1, hq], by simp [List.filter_cons, hop, h2]⟩
        · exact Or.inr ⟨t, h1, by rw [← hq]; exact h2, h3,
            by simp [List.filter_cons, hop, h4]⟩
      · subst hopEq
        rcases ih s2 final h with ⟨h1, h2⟩ | ⟨t2, h1, h2, h3, h4⟩
        · refine Or.inr ⟨t, hroute, hsq, by rw [h1, hs2q], ?_⟩
          have hhd : List.filter (fun op => op.isSetQuery) (BuilderOp.setQuery t :: rest) =
              BuilderOp.setQuery t :: List.filter (fun op => op.isSetQuery) rest := by
            simp [List.filter_cons, BuilderOp.isSetQuery]
          rw [hhd, h2]
        · simp [hs2q] at h2

theorem runOps_body_trace (route : RouteSig) (ops : List BuilderOp) :
    ∀ (s final : RequestBuilderState), runOps route s ops = some final →
      (final.heldBody = s.heldBody ∧
        ops.filter (fun op => op.isSetJson) = []) ∨
      (∃ t, route.requestBody = .jsonBody t ∧ s.heldBody = .noBody ∧
        final.heldBody = .jsonBody t ∧
        ops.filter (fun op => op.isSetJson) = [.setJson t]) := by
  induction ops with
  | nil =>
    intro s final h
    simp [runOps] at h
    subst h
    exact Or.inl ⟨rfl, rfl⟩
  | cons op rest ih =>
    intro s final h
    cases hstep : applyOp route s op with
    | none => simp [runOps, hstep] at h
    | some s2 =>
      simp only [runOps, hstep] at h
      rcases applyOp_body_step route s s2 op hstep with ⟨hop, hb⟩ | ⟨t, hopEq, hroute, hsb, hs2b⟩
      · rcases ih s2 final h with ⟨h1, h2⟩ | ⟨t, h1, h2, h3, h4⟩
        · exact Or.inl ⟨by rw [h1, hb], by simp [List.filter_cons, hop, h2]⟩
        · exact Or.inr ⟨t, h1, by rw [← hb]; exact h2, h3,
            by simp [List.filter_cons, hop, h4]⟩
      · subst hopEq
        rcases ih s2 final h with ⟨h1, h2⟩ | ⟨t2, h1, h2, h3, h4⟩
        · refine Or.inr ⟨t, hroute, hsb, by rw [h1, hs2b], ?_⟩
          have hhd : List.filter (fun op => op.isSetJson) (BuilderOp.setJson t :: rest) =
              BuilderOp.setJson t :: List.filter (fun op => op.isSetJson) rest := by
            simp [List.filter_cons, BuilderOp.isSetJson]
          rw [hhd, h2]
        · simp [hs2b] at h2

/-- C1: the typed query-setting call is available exactly when the route
declares a `Query<T>` shape and no query is held, and it stores the query
leaving the body typestate and the low-level head unchanged; symmetrically
for the typed body-setting call; and every call sequence from the initial
state that reaches a `build`-available state has set exactly the shapes
the descriptor declares — one typed query call per declared `Query<T>`
and none for `NoQuery`, one typed body call per declared `JsonBody<T>`
and none for `NoBody` — while a sequence that omits a declared query
shape leaves `build` unavailable. -/
theorem C1_staged_builder (route : RouteSig) :
    (∀ (s s2 : RequestBuilderState) (t : Nat),
      applyOp route s (.setQuery t) = some s2 ↔
        (route.query = .query t ∧ s.heldQuery = .noQuery ∧
          s2.heldQuery = .query t ∧ s2.heldBody = s.heldBody ∧
          s2.builder = s.builder)) ∧
    (∀ (s s2 : RequestBuilderState) (t : Nat),
      applyOp route s (.setJson t) = some s2 ↔
        (route.requestBody = .jsonBody t ∧ s.heldBody = .noBody ∧
          s2.heldBody = .jsonBody t ∧ s2.heldQuery = s.heldQuery ∧
          s2.builder = s.builder)) ∧
    (∀ (s0 final : RequestBuilderState) (ops : List BuilderOp),
      s0.heldQuery = .noQuery → s0.heldBody = .noBody →
      runOps route s0 ops = some final →
      buildAvailable route final = true →
      final.heldQuery = route.query ∧ final.heldBody = route.requestBody ∧
      (route.query = .noQuery → ops.filter (fun op => op.isSetQuery) = []) ∧
      (∀ t, route.query = .query t →
        ops.filter (fun op => op.isSetQuery) = [.setQuery t]) ∧
      (route.requestBody = .noBody → ops.filter (fun op => op.isSetJson) = []) ∧
      (∀ t, route.requestBody = .jsonBody t →
        ops.filter (fun op => op.isSetJson) = [.setJson t])) ∧
    (∀ (s0 final : RequestBuilderState) (ops : List BuilderOp) (t : Nat),
      s0.heldQuery = .noQuery → runOps route s0 ops = some final →
      route.query = .query t → ops.filter (fun op => op.isSetQuery) = [] →
      buildAvailable route final = false) := by
  refine ⟨?_, ?_, ?_, ?_⟩
  · intro s s2 t
    constructor
    · intro h
      by_cases hc : route.query = QueryShape.query t ∧ s.heldQuery = QueryShape.noQuery
      · simp [applyOp, hc] at h
        exact ⟨hc.1, hc.2, by rw [← h], by rw [← h], by rw [← h]⟩
      · simp [applyOp, hc] at h
    · rintro ⟨h1, h2, h3, h4, h5⟩
      obtain ⟨q2, b2, bl2⟩ := s2
      simp only [applyOp, if_pos (And.intro h1 h2)]
      simp_all
  · intro s s2 t
    constructor
    · intro h
      by_cases hc : route.requestBody = BodyShape.jsonBody t ∧ s.heldBody = BodyShape.noBody
      · simp [applyOp, hc] at h
        exact ⟨hc.1, hc.2, by rw [← h], by rw [← h], by rw [← h]⟩
      · simp [applyOp, hc] at h
    · rintro ⟨h1, h2, h3, h4, h5⟩
      obtain ⟨q2, b2, bl2⟩ := s2
      simp only [applyOp, if_pos (And.intro h1 h2)]
      simp_all
  · intro s0 final ops h0q h0b hrun hbuild
    have hb2 : final.heldQuery = route.query ∧ final.heldBody = route.requestBody := by
      simpa [buildAvailable, Bool.and_eq_true, decide_eq_true_eq] using hbuild
    refine ⟨hb2.1, hb2.2, ?_, ?_, ?_, ?_⟩
    · intro hnq
      rcases runOps_query_trace route ops s0 final hrun with ⟨_, h2⟩ | ⟨t, h1, _, _, _⟩
      · exact h2
      · rw [hnq] at h1; cases h1
    · intro t ht
      rcases runOps_query_trace route ops s0 final hrun with ⟨h1, _⟩ | ⟨t2, h1, _, _, h4⟩
      · have hcontra : QueryShape.query t = QueryShape.noQuery := by
          rw [← ht, ← hb2.1, h1, h0q]
        cases hcontra
      · rw [ht] at h1
        injection h1 with h
        subst h
        exact h4
    · intro hnb
      rcases runOps_body_trace route ops s0 final hrun with ⟨_, h2⟩ | ⟨t, h1, _, _, _⟩
      · exact h2
      · rw [hnb] at h1; cases h1
    · intro t ht
      rcases runOps_body_trace route ops s0 final hrun with ⟨h1, _⟩ | ⟨t2, h1, _, _, h4⟩
      · have hcontra : BodyShape.jsonBody t = BodyShape.noBody := by
          rw [← ht, ← hb2.2, h1, h0b]
        cases hcontra
      · rw [ht] at h1
        injection h1 with h
        subst h
        exact h4
  · intro s0 final ops t h0q hrun hroute hfilter
    rcases runOps_query_trace route ops s0 final hrun with ⟨h1, _⟩ | ⟨t2, _, _, _, h4⟩
    · simp [buildAvailable, h1, h0q, hroute]
    · rw [hfilter] at h4
      cases h4

/-- Witness for C1 on the declared route `x::Abc` (no query, JSON body):
the single typed body call reaches a finalizable state, with exactly no
typed query call and exactly one typed body call at the declared payload. -/
theorem C1_staged_builder_witness :
    (runOps x.Abc.route
        { heldQuery := .noQuery, heldBody := .noBody,
          builder := { method := .POST, url := x.Abc.URI, queryPairs := [] } }
        [.setJson x.vecU8Tag] =
      some { heldQuery := .noQuery, heldBody := .jsonBody x.vecU8Tag,
             builder := { method := .POST, url := x.Abc.URI, queryPairs := [] } } ∧
      buildAvailable x.Abc.route
        { heldQuery := .noQuery, heldBody := .jsonBody x.vecU8Tag,
          builder := { method := .POST, url := x.Abc.URI, queryPairs := [] } } = true) ∧
    ([BuilderOp.setJson x.vecU8Tag].filter (fun op => op.isSetQuery) = [] ∧
      [BuilderOp.setJson x.vecU8Tag].filter (fun op => op.isSetJson) =
        [.setJson x.vecU8Tag]) :=
  ⟨⟨by decide, by decide⟩,
   ((C1_staged_builder x.Abc.route).2.2.1
      { heldQuery := .noQuery, heldBody := .noBody,
        builder := { method := .POST, url := x.Abc.URI, queryPairs := [] } }
      { heldQuery := .noQuery, heldBody := .jsonBody x.vecU8Tag,
        builder := { method := .POST, url := x.Abc.URI, queryPairs := [] } }
      [.setJson x.vecU8Tag] rfl rfl (by decide) (by decide)).2.2.1 rfl,
   ((C1_staged_builder x.Abc.route).2.2.1
      { heldQuery := .noQuery, heldBody := .noBody,
        builder := { method := .POST, url := x.Abc.URI, queryPairs := [] } }
      { heldQuery := .noQuery, heldBody := .jsonBody x.vecU8Tag,
        builder := { method := .POST, url := x.Abc.URI, queryPairs := [] } }
      [.setJson x.vecU8Tag] rfl rfl (by decide) (by decide)).2.2.2.2.2
      x.vecU8Tag rfl⟩

end TypedRouting
